import Mathlib

/-!
Shallow embedding of `mujoco_py/builder.py` (extension build-and-load
pipeline and runtime callback compiler).

Filesystem effects and external processes are modelled explicitly:
filesystems are maps from path strings to file contents, environment
inspection results are record fields, and the coordinator records an
event trace (builder construction, lock acquisition, artifact removal,
build, load attempts).
-/

/-! ## Python string sorting (`sorted` on a list of strings)

Python compares strings lexicographically by code point.  `charsLe`
is that comparison on the character lists underlying Lean strings, and
`pySorted` is an insertion sort with it (deterministic and stable, as
Python's `sorted` is). -/

def charsLe : List Char → List Char → Bool
  | [], _ => true
  | _ :: _, [] => false
  | a :: as, b :: bs =>
    if a.toNat < b.toNat then true
    else if b.toNat < a.toNat then false
    else charsLe as bs

def strLe (a b : String) : Bool := charsLe a.data b.data

/-- Does the second character list start with the first? -/
def charsStart : List Char → List Char → Bool
  | [], _ => true
  | _ :: _, [] => false
  | a :: as, b :: bs => a == b && charsStart as bs

/-- Python `s.startswith(pre)`, by code points. -/
def pyStartsWith (s pre : String) : Bool := charsStart pre.data s.data

def insortStr (x : String) : List String → List String
  | [] => [x]
  | y :: ys => if strLe x y then x :: y :: ys else y :: insortStr x ys

def pySorted (l : List String) : List String := l.foldr insortStr []

/-! ## GPU driver discovery (`get_nvidia_lib_dir`, builder.py lines 26-41) -/

/-- Result of inspecting the machine for NVIDIA drivers, as observed by
`get_nvidia_lib_dir`: whether `nvidia-smi` is on the PATH, whether the
docker path `/usr/local/nvidia/lib64` exists, and the (unsorted) result
of `glob.glob('/usr/lib/nvidia-[0-9][0-9][0-9]')`. -/
structure NvidiaEnv where
  nvidiaSmiExists : Bool
  dockerPathExists : Bool
  globNvidiaDirs : List String
deriving DecidableEq

/-- `get_nvidia_lib_dir` (builder.py lines 26-41): returns `None` when
`nvidia-smi` is absent, the docker path when it exists, else sorts the
globbed versioned driver directories and returns the last one
(`paths[-1]`), or `None` when the glob found nothing. -/
def get_nvidia_lib_dir (env : NvidiaEnv) : Option String :=
  if env.nvidiaSmiExists = false then none
  else if env.dockerPathExists then some "/usr/local/nvidia/lib64"
  else
    let paths := pySorted env.globNvidiaDirs
    if paths.length = 0 then none
    else paths.getLast?

/-! ## Platform dispatch of `load_cython_ext` (builder.py lines 66-82) -/

/-- The four `Builder` classes that `load_cython_ext` can select. -/
inductive BuilderKind
  | mac
  | linuxGPU
  | linuxCPU
  | windows
deriving DecidableEq

/-- Exceptions the coordinator can raise.  `envVarMissing` is the
`Exception` raised by `_ensure_set_env_var` (lines 112-120),
`winPathMissing` the `Exception` of lines 78-79, `unsupportedPlatform`
the `RuntimeError` of line 82, `importError` an `ImportError` escaping
`load_dynamic_ext`, and `buildError` a toolchain failure escaping
`builder.build()`. -/
inductive LoadErr
  | envVarMissing (var : String)
  | winPathMissing
  | unsupportedPlatform (p : String)
  | importError
  | buildError
deriving DecidableEq

/-- Environment observed by the platform dispatch of `load_cython_ext`:
`sys.platform`, the `MUJOCO_PY_FORCE_CPU` variable, the NVIDIA
inspection results, and whether `_ensure_set_env_var` finds the mujoco
`bin` path (resp. the NVIDIA dir) in `LD_LIBRARY_PATH`, resp. the
mujoco `bin` path in the Windows `PATH`. -/
structure SysEnv where
  platform : String
  forceCPUFlag : Option String
  nvidia : NvidiaEnv
  ldLibraryPathHasLib : Bool
  ldLibraryPathHasNvidia : Bool
  winPathHasLib : Bool
deriving DecidableEq

/-- Lines 66-82 of `load_cython_ext`: choose the `Builder` class from the
platform, or raise.  On Linux the GPU builder is chosen iff
`MUJOCO_PY_FORCE_CPU` is unset and `get_nvidia_lib_dir()` is not `None`. -/
def select_builder (env : SysEnv) : Except LoadErr BuilderKind :=
  if env.platform = "darwin" then
    Except.ok BuilderKind.mac
  else if env.platform = "linux" then
    if env.ldLibraryPathHasLib = false then
      Except.error (LoadErr.envVarMissing "LD_LIBRARY_PATH")
    else if env.forceCPUFlag.isNone && (get_nvidia_lib_dir env.nvidia).isSome then
      if env.ldLibraryPathHasNvidia = false then
        Except.error (LoadErr.envVarMissing "LD_LIBRARY_PATH")
      else Except.ok BuilderKind.linuxGPU
    else Except.ok BuilderKind.linuxCPU
  else if pyStartsWith env.platform "win" then
    if env.winPathHasLib then Except.ok BuilderKind.windows
    else Except.error LoadErr.winPathMissing
  else Except.error (LoadErr.unsupportedPlatform env.platform)

/-! ## The build coordinator (`load_cython_ext`, builder.py lines 84-109) -/

/-- Observable events of one `load_cython_ext` invocation. -/
inductive Ev
  | constructBuilder (k : BuilderKind)
  | acquireLock
  | releaseLock
  | removeArtifact (existed : Bool)
  | build
  | tryLoad (ok : Bool)
deriving DecidableEq

/-- `os.remove` on the artifact path: succeeds when the file exists,
raises `OSError` when it is already absent. -/
def os_remove (present : Bool) : Except Unit Unit :=
  if present then Except.ok () else Except.error ()

/-- State and oracle outcomes for one `load_cython_ext` invocation:
whether `MUJOCO_PY_FORCE_REBUILD` is set, whether the canonical artifact
`cext_so_path` exists at entry, whether loading the pre-existing
artifact would succeed (else it raises `ImportError`), whether
`builder.build()` succeeds, and whether loading the freshly built
artifact succeeds. -/
structure CoordEnv where
  sys : SysEnv
  forceRebuild : Bool
  artifactPresent : Bool
  loadExistingOk : Bool
  buildOk : Bool
  loadBuiltOk : Bool
deriving DecidableEq

/-- `load_cython_ext` (builder.py lines 44-109), from line 66 on.
Returns the outcome together with the event trace.

* platform dispatch (66-82) may raise before the builder is constructed;
* `builder = Builder(mujoco_path)` (84) is the `constructBuilder` event;
* the force-rebuild block (90-99) takes the lock and calls `os.remove`
  inside `try: ... except OSError: pass`, so an absent file is ignored
  (modelled by dropping the `os_remove` result and continuing with the
  artifact absent either way);
* if the artifact exists it is loaded (100-104); an `ImportError` is
  caught and leaves `mod = None`;
* if `mod is None` (105-108) the lock is taken, `builder.build()` runs,
  and its output is loaded; failures here propagate (a build failure or
  an `ImportError` on the freshly built artifact is not caught). -/
def load_cython_ext (env : CoordEnv) : Except LoadErr Unit × List Ev :=
  match select_builder env.sys with
  | Except.error e => (Except.error e, [])
  | Except.ok k =>
    let ev0 : List Ev := [Ev.constructBuilder k]
    let step1 : Bool × List Ev :=
      if env.forceRebuild then
        -- `with LockFile(lockpath): try: os.remove(...) except OSError: pass`
        let _ignored := os_remove env.artifactPresent
        (false, ev0 ++ [Ev.acquireLock, Ev.removeArtifact env.artifactPresent, Ev.releaseLock])
      else (env.artifactPresent, ev0)
    let present := step1.1
    let step2 : Bool × List Ev :=
      if present then
        if env.loadExistingOk then (true, step1.2 ++ [Ev.tryLoad true])
        else (false, step1.2 ++ [Ev.tryLoad false])
      else (false, step1.2)
    if step2.1 then (Except.ok (), step2.2)
    else
      if env.buildOk then
        if env.loadBuiltOk then
          (Except.ok (), step2.2 ++ [Ev.acquireLock, Ev.build, Ev.tryLoad true, Ev.releaseLock])
        else
          (Except.error LoadErr.importError,
           step2.2 ++ [Ev.acquireLock, Ev.build, Ev.tryLoad false, Ev.releaseLock])
      else
        (Except.error LoadErr.buildError, step2.2 ++ [Ev.acquireLock, Ev.build, Ev.releaseLock])

/-! ## `os.path.splitext` and the Mac post-link fixup
(`manually_link_libraries`, builder.py lines 158-193) -/

/-- Index of the last occurrence of `c` in `l` (Python `str.rfind`,
with `none` for "not found"). -/
def rlastIdx (c : Char) : List Char → Option Nat
  | [] => none
  | x :: xs =>
    match rlastIdx c xs with
    | some i => some (i + 1)
    | none => if x = c then some 0 else none

/-- Helper for `splitext`: the basename starts at `fnameStart` and the
last dot sits at index `d`.  If every character strictly between them is
a dot the basename consists of leading dots only and there is no
extension; otherwise split at `d`. -/
def splitAtDot (p : String) (fnameStart d : Nat) : String × String :=
  if ((p.data.drop fnameStart).take (d - fnameStart)).all (fun c => c == '.') then (p, "")
  else (String.mk (p.data.take d), String.mk (p.data.drop d))

/-- `os.path.splitext` for POSIX paths: split at the last `'.'` provided
it lies inside the basename and the basename is not made of leading dots
only up to that point (so `".bashrc"` has no extension). -/
def splitext (p : String) : String × String :=
  match rlastIdx '.' p.data with
  | none => (p, "")
  | some d =>
    match rlastIdx '/' p.data with
    | none => splitAtDot p 0 d
    | some s => if s < d then splitAtDot p (s + 1) d else (p, "")

/-- builder.py lines 160-161: `root, ext = splitext(raw)`;
`final = root + '_final' + ext`. -/
def final_path (raw_cext_dll_path : String) : String :=
  (splitext raw_cext_dll_path).1 ++ "_final" ++ (splitext raw_cext_dll_path).2

/-- Content of a Mach-O shared object, abstracted to an opaque payload
plus the list of dependency references that `install_name_tool` edits. -/
structure DylibContent where
  payload : Nat
  deps : List String
deriving DecidableEq

/-- `install_name_tool -change FROM TO FILE`: rewrite every dependency
entry equal to `FROM` into `TO`. -/
def install_name_tool_change (changeFrom changeTo : String) (c : DylibContent) : DylibContent :=
  { c with deps := c.deps.map fun d => if d = changeFrom then changeTo else d }

/-- A file on the Mac filesystem model: content plus modification time. -/
structure MacFile where
  content : DylibContent
  mtime : Nat
deriving DecidableEq

/-- Filesystem for the Mac fixup: path → optional file. -/
def MacFS := String → Option MacFile

/-- Point update of a `MacFS`. -/
def updFS (fs : MacFS) (p : String) (v : Option MacFile) : MacFS :=
  fun q => if q = p then v else fs q

/-- Lines 169-193 of `manually_link_libraries` (the regeneration path):
copy raw to `final + '~'` (a fresh file, so its mtime is the current
time `now`), apply the two `install_name_tool -change` rewrites in
place, then `os.rename` the temporary onto the final path. -/
def mll_rebuild (mujoco_path final : String) (now : Nat) (fs : MacFS) (rf : MacFile) :
    String × MacFS :=
  let tmp := final ++ "~"
  let mj_bin_path := mujoco_path ++ "/bin"
  let c1 := install_name_tool_change "@executable_path/libmujoco200.dylib"
              (mj_bin_path ++ "/libmujoco200.dylib") rf.content
  let c2 := install_name_tool_change "libglfw.3.dylib"
              (mj_bin_path ++ "/libglfw.3.dylib") c1
  let fs1 := updFS fs tmp (some ⟨c2, now⟩)
  let fs2 := updFS (updFS fs1 tmp none) final (some ⟨c2, now⟩)
  (final, fs2)

/-- `manually_link_libraries` (builder.py lines 158-193).  `now` is the
current clock value, used as the mtime of files written by this call.
If the final artifact exists and is not older than the raw artifact
(`getmtime(final) >= getmtime(raw)`), return it unchanged; otherwise
regenerate it from the raw artifact.  A missing raw artifact makes
`getmtime(raw)` (resp. `shutil.copyfile`) raise `OSError`. -/
def manually_link_libraries (mujoco_path raw_cext_dll_path : String) (now : Nat) (fs : MacFS) :
    Except Unit (String × MacFS) :=
  let final_cext_dll_path := final_path raw_cext_dll_path
  match fs final_cext_dll_path with
  | some ff =>
    match fs raw_cext_dll_path with
    | none => Except.error ()
    | some rf =>
      if rf.mtime ≤ ff.mtime then Except.ok (final_cext_dll_path, fs)
      else Except.ok (mll_rebuild mujoco_path final_cext_dll_path now fs rf)
  | none =>
    match fs raw_cext_dll_path with
    | none => Except.error ()
    | some rf => Except.ok (mll_rebuild mujoco_path final_cext_dll_path now fs rf)

/-! ## `MujocoExtensionBuilder.build` (builder.py lines 221-225) -/

/-- Content-only filesystem for the build coordinator: path → optional
content (an opaque content identifier). -/
def FSc := String → Option Nat

/-- Point update of an `FSc`. -/
def updFSc (fs : FSc) (p : String) (v : Option Nat) : FSc :=
  fun q => if q = p then v else fs q

namespace MujocoExtensionBuilder

/-- `MujocoExtensionBuilder.build` (builder.py lines 221-225):
run `_build_impl` (modelled as an oracle `impl` acting on the
filesystem: it returns the built shared-object path, or raises a
toolchain error identified by a `Nat`, and in either case the
filesystem after its scratch-directory writes), then
`move(built_so_file_path, new_so_file_path)` and return the canonical
path `so_file_path` (`get_so_file_path`).  On failure the exception
propagates and no move happens. -/
def build (impl : FSc → Except Nat String × FSc) (so_file_path : String) (fs : FSc) :
    Except Nat String × FSc :=
  match impl fs with
  | (Except.error e, fs1) => (Except.error e, fs1)
  | (Except.ok built, fs1) =>
    (Except.ok so_file_path, updFSc (updFSc fs1 built none) so_file_path (fs1 built))

end MujocoExtensionBuilder

/-! ## The runtime callback compiler
(`build_fn_cleanup` lines 383-394 and `build_callback_fn` lines 397-492) -/

/-- A Python value passed as `userdata_names`: a list, a tuple, or
anything else (described by a string). -/
inductive PyVal
  | pylist (xs : List String)
  | pytuple (xs : List String)
  | other (desc : String)
deriving DecidableEq

/-- `isinstance(v, (list, tuple))`, together with the extracted sequence
of names when it holds. -/
def userdata_list : PyVal → Option (List String)
  | PyVal.pylist xs => some xs
  | PyVal.pytuple xs => some xs
  | PyVal.other _ => none

/-- Lines 468-473 of `build_callback_fn`: the loop
`for i, data_name in enumerate(userdata_names): source_string += ...`,
rendered with the running index `i` and the accumulator `s`. -/
def add_userdata_defines (i : Nat) (s : String) : List String → String
  | [] => s
  | n :: ns =>
    add_userdata_defines (i + 1)
      (s ++ "#define " ++ n ++ " d->userdata[" ++ toString i ++ "]\n") ns

/-- Lines 468-473 of `build_callback_fn`: synthesize the compilation
unit: the mujoco header include, one `#define` per userdata name, the
caller's `function_string`, and the trailing `__fun` declaration. -/
def build_callback_source (function_string : String) (userdata_names : List String) : String :=
  let source_string := "#include <mujoco.h>\n"
  let source_string := add_userdata_defines 0 source_string userdata_names
  let source_string := source_string ++ function_string
  source_string ++ "\nuintptr_t __fun = (uintptr_t) fun;"

/-- `build_fn_cleanup(name)` (builder.py lines 383-394): when
`MUJOCO_PY_DEBUG_FN_BUILDER` is unset, remove every file matched by
`glob.glob(name + '*')`, catching (and merely logging) a
`PermissionError` on an individual file.  `removeOk f` tells whether
`os.remove(f)` succeeds (`false` = `PermissionError`, the file stays).
The on-disk state is the list of file names `files`. -/
def build_fn_cleanup (debugFlag : Bool) (removeOk : String → Bool) (name : String)
    (files : List String) : List String :=
  if debugFlag then files
  else files.filter fun f => !(pyStartsWith f name && removeOk f)

/-- Exceptions of `build_callback_fn`: the `assert` on `userdata_names`
(line 463), a compilation/link failure re-raised after cleanup (lines
480-484, carrying the original exception's identity), and a load
failure escaping `load_dynamic_ext` (line 489, not caught). -/
inductive CbErr
  | assertionError
  | compileError (e : Nat)
  | loadError
deriving DecidableEq

/-- Observable events of one `build_callback_fn` invocation. -/
inductive CbEv
  | genName
  | compile (ok : Bool)
  | macFixup
  | load (ok : Bool)
  | cleanup
deriving DecidableEq

/-- Environment and oracle outcomes for one `build_callback_fn`
invocation: the `MUJOCO_PY_DEBUG_FN_BUILDER` flag, whether the platform
is `darwin`, the random unique module name generated at line 467, the
outcome of `ffibuilder.compile` (success produces the files
`producedFiles` on disk and returns `libraryPath`; failure leaves the
files `strayFiles` and raises exception `compileExc`), the outcome of
`load_dynamic_ext`, the loaded `module.lib.__fun` pointer, and the
per-file `os.remove` outcome used by cleanup. -/
structure CbEnv where
  debugFlag : Bool
  isDarwin : Bool
  name : String
  compileOk : Bool
  compileExc : Nat
  producedFiles : List String
  strayFiles : List String
  loadOk : Bool
  funPtr : Nat
  removeOk : String → Bool

/-- `build_callback_fn` (builder.py lines 397-492), returning the
outcome (the `__fun` pointer or the raised exception), the resulting
on-disk file list, and the event trace:

* line 463: `assert isinstance(userdata_names, (list, tuple))` — on
  failure nothing else happens (no name generation, no filesystem
  side effect);
* line 467: the unique module name is generated;
* lines 468-478: the compilation unit is synthesized
  (`build_callback_source`) and handed to cffi;
* lines 480-484: `ffibuilder.compile`; on failure `build_fn_cleanup`
  runs and the original exception is re-raised;
* lines 486-488: on Mac, `manually_link_libraries` plus `move` fix the
  produced library in place (contents only; the set of file names is
  unchanged once the transient files are renamed away);
* line 489: `load_dynamic_ext` — a failure here propagates uncaught;
* lines 491-492: `build_fn_cleanup`, then return `module.lib.__fun`. -/
def build_callback_fn (env : CbEnv) (function_string : String) (userdata_names : PyVal)
    (files : List String) : (Except CbErr Nat × List String) × List CbEv :=
  match userdata_list userdata_names with
  | none => ((Except.error CbErr.assertionError, files), [])
  | some names =>
    let _source_string := build_callback_source function_string names
    if env.compileOk = false then
      let files1 := files ++ env.strayFiles
      let files2 := build_fn_cleanup env.debugFlag env.removeOk env.name files1
      ((Except.error (CbErr.compileError env.compileExc), files2),
       [CbEv.genName, CbEv.compile false, CbEv.cleanup])
    else
      let files1 := files ++ env.producedFiles
      let evFix : List CbEv := if env.isDarwin then [CbEv.macFixup] else []
      if env.loadOk = false then
        ((Except.error CbErr.loadError, files1),
         [CbEv.genName, CbEv.compile true] ++ evFix ++ [CbEv.load false])
      else
        let files2 := build_fn_cleanup env.debugFlag env.removeOk env.name files1
        ((Except.ok env.funPtr, files2),
         [CbEv.genName, CbEv.compile true] ++ evFix ++ [CbEv.load true, CbEv.cleanup])

/-! ## Remaining definitions: spec-side description of the callback
source layout (for comparison against `build_callback_source`) and
concrete inputs used by witnesses. -/

/-- The define lines as the spec describes them: for every index `i`
into the name list (counting from `i0`), the single line
`#define <name_i> d->userdata[i]`. -/
def spec_userdata_lines (i0 : Nat) : List String → List String
  | [] => []
  | n :: ns =>
    ("#define " ++ n ++ " d->userdata[" ++ toString i0 ++ "]\n")
      :: spec_userdata_lines (i0 + 1) ns

/-- Concrete Mac filesystem for the C3 witness: one raw artifact with
the build-time dependency references. -/
def macFSw : MacFS := fun q =>
  if q = "/x/cymj_raw.so" then
    some ⟨⟨0, ["@executable_path/libmujoco200.dylib", "libglfw.3.dylib"]⟩, 5⟩
  else none

/-- The raw artifact stored by `macFSw`. -/
def macFileW : MacFile :=
  ⟨⟨0, ["@executable_path/libmujoco200.dylib", "libglfw.3.dylib"]⟩, 5⟩

/-- Concrete `_build_impl` oracle for the C5 witness: writes the built
shared object into the scratch directory and returns its path. -/
def implW : FSc → Except Nat String × FSc := fun fs =>
  (Except.ok "/gen/_pyxbld/built.so", updFSc fs "/gen/_pyxbld/built.so" (some 7))

/-- Concrete failing `_build_impl` oracle for the C5 witness: raises
toolchain error 42 after leaving scratch garbage. -/
def implFailW : FSc → Except Nat String × FSc := fun fs =>
  (Except.error 42, updFSc fs "/gen/_pyxbld/part.o" (some 9))

/-- Concrete initial filesystem for the C5 witness: a stale artifact at
the canonical path. -/
def fscW : FSc := fun q => if q = "/gen/cymj.so" then some 3 else none

/-- Concrete callback-compiler environment for the C7/C8/C10 witnesses. -/
def cbEnvW : CbEnv :=
  { debugFlag := false
    isDarwin := false
    name := "_fn_abcdefghijklmno"
    compileOk := true
    compileExc := 17
    producedFiles := ["_fn_abcdefghijklmno.c", "_fn_abcdefghijklmno.o", "_fn_abcdefghijklmno.so"]
    strayFiles := ["_fn_abcdefghijklmno.c"]
    loadOk := true
    funPtr := 99
    removeOk := fun _ => true }

/-! ## Helper lemmas: the code-point order and `pySorted` -/

theorem charsLe_refl (l : List Char) : charsLe l l = true := by
  induction l with
  | nil => rfl
  | cons a as ih => simp [charsLe, ih]

theorem charsLe_cons_iff (x y : Char) (xs ys : List Char) :
    charsLe (x :: xs) (y :: ys) = true ↔
      x.toNat < y.toNat ∨ (x.toNat = y.toNat ∧ charsLe xs ys = true) := by
  simp only [charsLe]
  rcases Nat.lt_trichotomy x.toNat y.toNat with h | h | h
  · simp [h]
  · simp [h, lt_self_iff_false]
  · have h1 : ¬ x.toNat < y.toNat := Nat.lt_asymm h
    have h2 : x.toNat ≠ y.toNat := by omega
    simp [h, h1, h2]

theorem charsLe_total (a b : List Char) : charsLe a b = true ∨ charsLe b a = true := by
  induction a generalizing b with
  | nil => left; rfl
  | cons x xs ih =>
    cases b with
    | nil => right; rfl
    | cons y ys =>
      rw [charsLe_cons_iff, charsLe_cons_iff]
      rcases Nat.lt_trichotomy x.toNat y.toNat with h | h | h
      · left; left; exact h
      · rcases ih ys with h2 | h2
        · left; right; exact ⟨h, h2⟩
        · right; right; exact ⟨h.symm, h2⟩
      · right; left; exact h

theorem charsLe_trans {a b c : List Char} (h1 : charsLe a b = true)
    (h2 : charsLe b c = true) : charsLe a c = true := by
  induction a generalizing b c with
  | nil => rfl
  | cons x xs ih =>
    cases b with
    | nil => simp [charsLe] at h1
    | cons y ys =>
      cases c with
      | nil => simp [charsLe] at h2
      | cons z zs =>
        rw [charsLe_cons_iff] at h1 h2 ⊢
        rcases h1 with h1 | ⟨h1e, h1t⟩ <;> rcases h2 with h2 | ⟨h2e, h2t⟩
        · left; omega
        · left; omega
        · left; omega
        · right; exact ⟨by omega, ih h1t h2t⟩

theorem strLe_refl (a : String) : strLe a a = true := charsLe_refl a.data

theorem strLe_total (a b : String) : strLe a b = true ∨ strLe b a = true :=
  charsLe_total a.data b.data

theorem strLe_trans {a b c : String} (h1 : strLe a b = true) (h2 : strLe b c = true) :
    strLe a c = true := charsLe_trans h1 h2

theorem mem_insortStr {a x : String} {l : List String} :
    a ∈ insortStr x l ↔ a = x ∨ a ∈ l := by
  induction l with
  | nil => simp [insortStr]
  | cons y ys ih =>
    by_cases h : strLe x y = true
    · simp [insortStr, h]
    · simp only [insortStr, if_neg h, List.mem_cons, ih]
      tauto

theorem insortStr_ne_nil (x : String) (l : List String) : insortStr x l ≠ [] := by
  cases l with
  | nil => simp [insortStr]
  | cons y ys =>
    by_cases h : strLe x y = true <;> simp [insortStr, h]

theorem pairwise_insortStr {x : String} {l : List String}
    (h : List.Pairwise (fun a b => strLe a b = true) l) :
    List.Pairwise (fun a b => strLe a b = true) (insortStr x l) := by
  induction l with
  | nil => simp [insortStr]
  | cons y ys ih =>
    rcases List.pairwise_cons.1 h with ⟨hy, hys⟩
    by_cases hxy : strLe x y = true
    · rw [insortStr, if_pos hxy]
      refine List.pairwise_cons.2 ⟨?_, h⟩
      intro b hb
      rcases List.mem_cons.1 hb with rfl | hb2
      · exact hxy
      · exact strLe_trans hxy (hy b hb2)
    · rw [insortStr, if_neg hxy]
      refine List.pairwise_cons.2 ⟨?_, ih hys⟩
      intro b hb
      rcases mem_insortStr.1 hb with hbx | hb2
      · subst hbx; exact (strLe_total _ y).resolve_left hxy
      · exact hy b hb2

theorem pairwise_pySorted (l : List String) :
    List.Pairwise (fun a b => strLe a b = true) (pySorted l) := by
  induction l with
  | nil => simp [pySorted]
  | cons x xs ih => exact pairwise_insortStr ih

theorem mem_pySorted {a : String} {l : List String} : a ∈ pySorted l ↔ a ∈ l := by
  induction l with
  | nil => simp [pySorted]
  | cons x xs ih =>
    show a ∈ insortStr x (pySorted xs) ↔ _
    rw [mem_insortStr, ih]
    simp

theorem pySorted_ne_nil {l : List String} (h : l ≠ []) : pySorted l ≠ [] := by
  cases l with
  | nil => exact absurd rfl h
  | cons x xs => exact insortStr_ne_nil x (pySorted xs)

theorem getLast?_some_of_ne_nil {α : Type} : ∀ (l : List α), l ≠ [] → ∃ m, l.getLast? = some m := by
  intro l hl
  cases h : l.getLast? with
  | some m => exact ⟨m, rfl⟩
  | none => exact absurd (List.getLast?_eq_none_iff.1 h) hl

theorem pairwise_getLast_max {l : List String} {m : String}
    (hp : List.Pairwise (fun a b => strLe a b = true) l) (hm : l.getLast? = some m) :
    ∀ a ∈ l, strLe a m = true := by
  induction l with
  | nil => simp at hm
  | cons x xs ih =>
    intro a ha
    cases xs with
    | nil =>
      simp at hm ha
      subst hm; subst ha
      exact strLe_refl a
    | cons y ys =>
      have hm2 : (y :: ys).getLast? = some m := by
        rwa [List.getLast?_cons_cons] at hm
      rcases List.mem_cons.1 ha with rfl | ha2
      · have hmem : m ∈ y :: ys := List.mem_of_getLast?_eq_some hm2
        exact (List.pairwise_cons.1 hp).1 m hmem
      · exact ih (List.pairwise_cons.1 hp).2 hm2 a ha2

/-! ## Helper lemmas: strings, `splitext`, `final_path` -/

theorem strJoin_cons (s : String) (l : List String) :
    String.join (s :: l) = s ++ String.join l := by
  apply String.ext
  simp [String.join_eq]

theorem strJoin_nil : String.join ([] : List String) = "" := rfl

theorem mk_take_append_drop (p : String) (d : Nat) :
    String.mk (p.data.take d) ++ String.mk (p.data.drop d) = p := by
  apply String.ext
  simp

theorem splitAtDot_append (p : String) (fnameStart d : Nat) :
    (splitAtDot p fnameStart d).1 ++ (splitAtDot p fnameStart d).2 = p := by
  unfold splitAtDot
  split
  · exact String.append_empty p
  · exact mk_take_append_drop p d

theorem splitext_append (p : String) : (splitext p).1 ++ (splitext p).2 = p := by
  unfold splitext
  cases rlastIdx '.' p.data with
  | none => exact String.append_empty p
  | some d =>
    cases rlastIdx '/' p.data with
    | none => exact splitAtDot_append p 0 d
    | some s =>
      show (if s < d then splitAtDot p (s + 1) d else (p, "")).1
            ++ (if s < d then splitAtDot p (s + 1) d else (p, "")).2 = p
      by_cases h3 : s < d
      · rw [if_pos h3]; exact splitAtDot_append p (s + 1) d
      · rw [if_neg h3]; exact String.append_empty p

theorem final_path_length (raw : String) :
    (final_path raw).length = raw.length + 6 := by
  have h := congrArg String.length (splitext_append raw)
  rw [String.length_append] at h
  unfold final_path
  rw [String.length_append, String.length_append]
  have h6 : ("_final" : String).length = 6 := rfl
  omega

theorem final_path_ne (raw : String) : final_path raw ≠ raw := by
  intro h
  have := congrArg String.length h
  rw [final_path_length] at this
  omega

theorem tmp_ne_raw (raw : String) : final_path raw ++ "~" ≠ raw := by
  intro h
  have := congrArg String.length h
  rw [String.length_append, final_path_length] at this
  have h1 : ("~" : String).length = 1 := rfl
  omega

theorem tmp_ne_final (raw : String) : final_path raw ++ "~" ≠ final_path raw := by
  intro h
  have := congrArg String.length h
  rw [String.length_append] at this
  have h1 : ("~" : String).length = 1 := rfl
  omega

/-! ## Claim theorems -/

/-- C9: for every operating-system identifier outside the supported set
(the Mac `darwin`, Linux `linux`, and Windows `win*` families),
`load_cython_ext` raises the fatal `RuntimeError` immediately: the
result is the `unsupportedPlatform` error and the event trace is empty,
so no builder is constructed, no lock is acquired and no build or load
is attempted. -/
theorem load_cython_ext_unsupported_platform (env : CoordEnv)
    (h1 : env.sys.platform ≠ "darwin") (h2 : env.sys.platform ≠ "linux")
    (h3 : pyStartsWith env.sys.platform "win" = false) :
    load_cython_ext env = (Except.error (LoadErr.unsupportedPlatform env.sys.platform), []) := by
  unfold load_cython_ext select_builder
  simp [h1, h2, h3]

/-- Witness for C9 at the concrete platform `freebsd`. -/
theorem load_cython_ext_unsupported_platform_witness :
    load_cython_ext
        ⟨⟨"freebsd", none, ⟨false, false, []⟩, false, false, false⟩,
          false, false, false, false, false⟩
      = (Except.error (LoadErr.unsupportedPlatform "freebsd"), []) :=
  load_cython_ext_unsupported_platform _ (by decide) (by decide) (by decide)

/-- C1: when `MUJOCO_PY_FORCE_REBUILD` is set, `load_cython_ext` removes
the artifact at the canonical `.so` path while holding the build lock,
before any build: the trace starts with
`acquireLock, removeArtifact, releaseLock` and the only `build` event
comes later.  A deletion failure because the file is already absent
(`os.remove` raising `OSError`) is swallowed: the outcome is the same
whether the artifact was present or already removed, and with a
successful build and load the call succeeds. -/
theorem load_cython_ext_force_rebuild (env : CoordEnv) (k : BuilderKind)
    (hsel : select_builder env.sys = Except.ok k) (hforce : env.forceRebuild = true) :
    (load_cython_ext env).2 =
        [Ev.constructBuilder k, Ev.acquireLock, Ev.removeArtifact env.artifactPresent,
         Ev.releaseLock]
          ++ (if env.buildOk then
                [Ev.acquireLock, Ev.build, Ev.tryLoad env.loadBuiltOk, Ev.releaseLock]
              else [Ev.acquireLock, Ev.build, Ev.releaseLock])
    ∧ (load_cython_ext env).1 = (load_cython_ext { env with artifactPresent := false }).1
    ∧ (env.buildOk = true → env.loadBuiltOk = true →
        (load_cython_ext env).1 = Except.ok ()) := by
  unfold load_cython_ext
  rw [hsel]
  simp only [hforce]
  cases hb : env.buildOk <;> cases hl : env.loadBuiltOk <;> simp

/-- Witness for C1: Linux CPU configuration, force-rebuild set, the
artifact already absent; the call still succeeds and the removal happens
under the first lock acquisition. -/
theorem load_cython_ext_force_rebuild_witness :
    (load_cython_ext
        ⟨⟨"linux", some "1", ⟨false, false, []⟩, true, false, false⟩,
          true, false, true, true, true⟩).2 =
        [Ev.constructBuilder BuilderKind.linuxCPU, Ev.acquireLock, Ev.removeArtifact false,
         Ev.releaseLock]
          ++ (if true then
                [Ev.acquireLock, Ev.build, Ev.tryLoad true, Ev.releaseLock]
              else [Ev.acquireLock, Ev.build, Ev.releaseLock])
    ∧ (load_cython_ext
        ⟨⟨"linux", some "1", ⟨false, false, []⟩, true, false, false⟩,
          true, false, true, true, true⟩).1 = Except.ok () := by
  have h := load_cython_ext_force_rebuild
      ⟨⟨"linux", some "1", ⟨false, false, []⟩, true, false, false⟩,
        true, false, true, true, true⟩ BuilderKind.linuxCPU (by rfl) rfl
  exact ⟨h.1, h.2.2 rfl rfl⟩

/-- C2: if the canonical artifact exists, the force flag is unset, and
loading the artifact raises an `ImportError`, the error does not
propagate: the coordinator performs exactly one rebuild-and-load attempt
under the build lock (trace: failed load, then
`acquireLock, build, tryLoad, releaseLock`), succeeding when the fresh
artifact loads and propagating the `ImportError` when it does not.
Moreover no invocation of `load_cython_ext` ever performs more than one
build. -/
theorem load_cython_ext_rebuild_once :
    (∀ env : CoordEnv, (load_cython_ext env).2.count Ev.build ≤ 1)
    ∧ ∀ (env : CoordEnv) (k : BuilderKind),
        select_builder env.sys = Except.ok k →
        env.forceRebuild = false →
        env.artifactPresent = true →
        env.loadExistingOk = false →
        env.buildOk = true →
        (load_cython_ext env).2 =
            [Ev.constructBuilder k, Ev.tryLoad false, Ev.acquireLock, Ev.build,
             Ev.tryLoad env.loadBuiltOk, Ev.releaseLock]
        ∧ (env.loadBuiltOk = true → (load_cython_ext env).1 = Except.ok ())
        ∧ (env.loadBuiltOk = false →
            (load_cython_ext env).1 = Except.error LoadErr.importError) := by
  constructor
  · intro env
    unfold load_cython_ext
    cases hsel : select_builder env.sys with
    | error e => simp
    | ok k =>
      cases hf : env.forceRebuild <;>
        cases hp : env.artifactPresent <;>
          cases he : env.loadExistingOk <;>
            cases hb : env.buildOk <;>
              cases hl : env.loadBuiltOk <;>
                simp [List.count_cons, List.count_nil]
  · intro env k hsel hf hp he hb
    unfold load_cython_ext
    rw [hsel]
    simp only [hf, hp, he, hb]
    cases hl : env.loadBuiltOk <;> simp

/-- Witness for C2: Linux CPU configuration, artifact present but
corrupt (load fails), rebuild succeeds and its load succeeds. -/
theorem load_cython_ext_rebuild_once_witness :
    (load_cython_ext
        ⟨⟨"linux", some "1", ⟨false, false, []⟩, true, false, false⟩,
          false, true, false, true, true⟩).2 =
        [Ev.constructBuilder BuilderKind.linuxCPU, Ev.tryLoad false, Ev.acquireLock,
         Ev.build, Ev.tryLoad true, Ev.releaseLock]
    ∧ (load_cython_ext
        ⟨⟨"linux", some "1", ⟨false, false, []⟩, true, false, false⟩,
          false, true, false, true, true⟩).1 = Except.ok () := by
  have h := load_cython_ext_rebuild_once.2
      ⟨⟨"linux", some "1", ⟨false, false, []⟩, true, false, false⟩,
        false, true, false, true, true⟩ BuilderKind.linuxCPU (by rfl) rfl rfl rfl rfl
  exact ⟨h.1, h.2.1 rfl⟩

/-- C4: `get_nvidia_lib_dir` sorts the discovered versioned driver
directories and returns the last sorted entry, which is the
lexicographically largest one; on the directories `nvidia-410`,
`nvidia-415`, `nvidia-450` it returns `nvidia-450`; and when it returns
`None` — or when the `MUJOCO_PY_FORCE_CPU` override is set — the Linux
branch of the platform dispatch selects the CPU builder variant. -/
theorem nvidia_driver_selection_policy :
    (∀ env : NvidiaEnv, env.nvidiaSmiExists = true → env.dockerPathExists = false →
        env.globNvidiaDirs ≠ [] →
        ∃ m, get_nvidia_lib_dir env = some m
          ∧ (pySorted env.globNvidiaDirs).getLast? = some m
          ∧ m ∈ env.globNvidiaDirs
          ∧ ∀ p ∈ env.globNvidiaDirs, strLe p m = true)
    ∧ get_nvidia_lib_dir
        ⟨true, false, ["/usr/lib/nvidia-410", "/usr/lib/nvidia-415", "/usr/lib/nvidia-450"]⟩
        = some "/usr/lib/nvidia-450"
    ∧ (∀ env : SysEnv, env.platform = "linux" → env.ldLibraryPathHasLib = true →
        get_nvidia_lib_dir env.nvidia = none →
        select_builder env = Except.ok BuilderKind.linuxCPU)
    ∧ (∀ env : SysEnv, env.platform = "linux" → env.ldLibraryPathHasLib = true →
        ∀ s, env.forceCPUFlag = some s →
        select_builder env = Except.ok BuilderKind.linuxCPU) := by
  refine ⟨?_, by rfl, ?_, ?_⟩
  · intro env h1 h2 h3
    have hnn : pySorted env.globNvidiaDirs ≠ [] := pySorted_ne_nil h3
    obtain ⟨m, hm⟩ := getLast?_some_of_ne_nil _ hnn
    refine ⟨m, ?_, hm, ?_, ?_⟩
    · unfold get_nvidia_lib_dir
      rw [h1, h2]
      simp only [Bool.true_eq_false, if_false, Bool.false_eq_true]
      rw [if_neg (by simp [List.length_eq_zero, hnn]), hm]
    · exact mem_pySorted.1 (List.mem_of_getLast?_eq_some hm)
    · intro p hp
      exact pairwise_getLast_max (pairwise_pySorted _) hm p (mem_pySorted.2 hp)
  · intro env h1 h2 h3
    unfold select_builder
    rw [h1, h2]
    simp [h3]
  · intro env h1 h2 s h3
    unfold select_builder
    rw [h1, h2]
    simp [h3]

/-- Witness for C4: the three-driver example, plus CPU selection for a
GPU-less Linux box and for a forced-CPU Linux box. -/
theorem nvidia_driver_selection_policy_witness :
    (∃ m, get_nvidia_lib_dir ⟨true, false, ["/usr/lib/nvidia-450", "/usr/lib/nvidia-410"]⟩
            = some m
        ∧ (pySorted ["/usr/lib/nvidia-450", "/usr/lib/nvidia-410"]).getLast? = some m
        ∧ m ∈ ["/usr/lib/nvidia-450", "/usr/lib/nvidia-410"]
        ∧ ∀ p ∈ ["/usr/lib/nvidia-450", "/usr/lib/nvidia-410"], strLe p m = true)
    ∧ select_builder ⟨"linux", none, ⟨false, false, []⟩, true, false, false⟩
        = Except.ok BuilderKind.linuxCPU
    ∧ select_builder ⟨"linux", some "1", ⟨true, true, []⟩, true, false, false⟩
        = Except.ok BuilderKind.linuxCPU := by
  refine ⟨nvidia_driver_selection_policy.1 _ rfl rfl (by decide),
    nvidia_driver_selection_policy.2.2.1 _ rfl rfl (by rfl),
    nvidia_driver_selection_policy.2.2.2 _ rfl rfl "1" rfl⟩

/-- C10: for every `userdata_names` argument that is neither a list nor
a tuple, `build_callback_fn` raises `AssertionError` with an empty event
trace (no module name generated, no compilation) and the filesystem
untouched; for every list or tuple (the empty one included) the
assertion passes: the outcome is never `AssertionError`. -/
theorem build_callback_fn_userdata_assertion :
    (∀ (env : CbEnv) (f d : String) (files : List String),
        build_callback_fn env f (PyVal.other d) files
          = ((Except.error CbErr.assertionError, files), []))
    ∧ ∀ (env : CbEnv) (f : String) (v : PyVal) (names : List String) (files : List String),
        userdata_list v = some names →
        (build_callback_fn env f v files).1.1 ≠ Except.error CbErr.assertionError := by
  constructor
  · intro env f d files
    rfl
  · intro env f v names files h
    unfold build_callback_fn
    rw [h]
    cases hc : env.compileOk <;> cases hl : env.loadOk <;> simp

/-- Witness for C10: a non-sequence argument is rejected, the empty list
and a tuple are accepted. -/
theorem build_callback_fn_userdata_assertion_witness :
    build_callback_fn cbEnvW "void fun(const mjModel* m, mjData* d) []" (PyVal.other "int")
        ["keep.txt"]
      = ((Except.error CbErr.assertionError, ["keep.txt"]), [])
    ∧ (build_callback_fn cbEnvW "" (PyVal.pylist []) []).1.1
        ≠ Except.error CbErr.assertionError
    ∧ (build_callback_fn cbEnvW "" (PyVal.pytuple ["a", "b"]) []).1.1
        ≠ Except.error CbErr.assertionError :=
  ⟨build_callback_fn_userdata_assertion.1 cbEnvW _ "int" ["keep.txt"],
   build_callback_fn_userdata_assertion.2 cbEnvW "" (PyVal.pylist []) [] [] rfl,
   build_callback_fn_userdata_assertion.2 cbEnvW "" (PyVal.pytuple ["a", "b"]) ["a", "b"] [] rfl⟩

/-- C7: when `ffibuilder.compile` fails, `build_callback_fn` runs
`build_fn_cleanup` (so that, when the debug flag is unset, every
remaining file whose name begins with the invocation's unique module
name is one whose individual removal failed) and re-raises the original
exception; it never returns a function pointer. -/
theorem build_callback_fn_compile_failure (env : CbEnv) (f : String) (v : PyVal)
    (names : List String) (files : List String)
    (hn : userdata_list v = some names) (hc : env.compileOk = false) :
    (build_callback_fn env f v files).1.1 = Except.error (CbErr.compileError env.compileExc)
    ∧ (∀ p : Nat, (build_callback_fn env f v files).1.1 ≠ Except.ok p)
    ∧ (build_callback_fn env f v files).2 = [CbEv.genName, CbEv.compile false, CbEv.cleanup]
    ∧ (env.debugFlag = false →
        ∀ g ∈ (build_callback_fn env f v files).1.2,
          pyStartsWith g env.name = true → env.removeOk g = false) := by
  unfold build_callback_fn
  rw [hn]
  simp only [hc, Bool.false_eq_true]
  refine ⟨by simp, by simp, by simp, ?_⟩
  intro hd g hg hs
  simp only [build_fn_cleanup, hd] at hg
  simp only [eq_self_iff_true, if_true, Bool.false_eq_true, if_false, List.mem_filter] at hg
  rcases hg with ⟨-, hg2⟩
  simp [hs] at hg2
  exact hg2

/-- Witness for C7: the concrete environment with a failing compile;
exception 17 is re-raised and no `_fn_`-prefixed file survives. -/
theorem build_callback_fn_compile_failure_witness :
    (build_callback_fn { cbEnvW with compileOk := false } "void fun()" (PyVal.pylist ["x"])
        ["keep.txt"]).1.1 = Except.error (CbErr.compileError 17)
    ∧ ∀ g ∈ (build_callback_fn { cbEnvW with compileOk := false } "void fun()"
          (PyVal.pylist ["x"]) ["keep.txt"]).1.2,
        pyStartsWith g "_fn_abcdefghijklmno" = true → False := by
  have h := build_callback_fn_compile_failure { cbEnvW with compileOk := false }
      "void fun()" (PyVal.pylist ["x"]) ["x"] ["keep.txt"] rfl rfl
  refine ⟨h.1, ?_⟩
  intro g hg hs
  have := h.2.2.2 rfl g hg hs
  simp [cbEnvW] at this

/-- C8: after a successful `build_callback_fn` call the pointer is
returned and cleanup has run: with the debug-retention flag unset, every
surviving file whose name begins with the invocation's unique module
name is one whose individual removal failed (so when all removals
succeed, no such file remains — and removal failures never make the call
fail); with the debug flag set, no file is deleted at all. -/
theorem build_callback_fn_success_cleanup (env : CbEnv) (f : String) (v : PyVal)
    (names : List String) (files : List String)
    (hn : userdata_list v = some names) (hc : env.compileOk = true)
    (hl : env.loadOk = true) :
    (build_callback_fn env f v files).1.1 = Except.ok env.funPtr
    ∧ (env.debugFlag = false →
        ∀ g ∈ (build_callback_fn env f v files).1.2,
          pyStartsWith g env.name = true → env.removeOk g = false)
    ∧ (env.debugFlag = false → (∀ g, env.removeOk g = true) →
        ∀ g ∈ (build_callback_fn env f v files).1.2,
          pyStartsWith g env.name = false)
    ∧ (env.debugFlag = true →
        (build_callback_fn env f v files).1.2 = files ++ env.producedFiles) := by
  unfold build_callback_fn
  rw [hn]
  simp only [hc, hl, Bool.true_eq_false, if_false, Bool.false_eq_true]
  refine ⟨by simp, ?_, ?_, ?_⟩
  · intro hd g hg hs
    simp only [build_fn_cleanup, hd] at hg
    simp only [eq_self_iff_true, if_true, Bool.false_eq_true, if_false,
      List.mem_filter] at hg
    rcases hg with ⟨-, hg2⟩
    simp [hs] at hg2
    exact hg2
  · intro hd hall g hg
    simp only [build_fn_cleanup, hd] at hg
    simp only [eq_self_iff_true, if_true, Bool.false_eq_true, if_false,
      List.mem_filter] at hg
    rcases hg with ⟨-, hg2⟩
    simp [hall g] at hg2
    exact hg2
  · intro hd
    simp [build_fn_cleanup, hd]

/-- Witness for C8: the concrete environment; the pointer 99 is
returned and no `_fn_`-prefixed file survives. -/
theorem build_callback_fn_success_cleanup_witness :
    (build_callback_fn cbEnvW "void fun()" (PyVal.pytuple ["my_sum"]) ["keep.txt"]).1.1
        = Except.ok 99
    ∧ ∀ g ∈ (build_callback_fn cbEnvW "void fun()" (PyVal.pytuple ["my_sum"])
          ["keep.txt"]).1.2,
        pyStartsWith g "_fn_abcdefghijklmno" = false := by
  have h := build_callback_fn_success_cleanup cbEnvW "void fun()" (PyVal.pytuple ["my_sum"])
      ["my_sum"] ["keep.txt"] rfl rfl rfl
  exact ⟨h.1, h.2.2.1 rfl (fun g => rfl)⟩

/-- The accumulator loop of lines 470-471 appends exactly the spec's
define lines, in order. -/
theorem add_userdata_defines_join (l : List String) : ∀ (i : Nat) (s : String),
    add_userdata_defines i s l = s ++ String.join (spec_userdata_lines i l) := by
  induction l with
  | nil =>
    intro i s
    rw [add_userdata_defines, spec_userdata_lines, strJoin_nil, String.append_empty]
  | cons n ns ih =>
    intro i s
    rw [add_userdata_defines, spec_userdata_lines, strJoin_cons, ih]
    simp only [String.append_assoc]

/-- The `i`-th spec define line (counting from `i0`) binds the `i`-th
name to scratch slot `i0 + i`. -/
theorem spec_userdata_lines_getElem (l : List String) : ∀ (i0 i : Nat),
    (spec_userdata_lines i0 l)[i]? =
      (l[i]?).map fun n => "#define " ++ n ++ " d->userdata[" ++ toString (i0 + i) ++ "]\n" := by
  induction l with
  | nil => intro i0 i; simp [spec_userdata_lines]
  | cons n ns ih =>
    intro i0 i
    cases i with
    | zero => simp [spec_userdata_lines]
    | succ k =>
      rw [spec_userdata_lines]
      simp only [List.getElem?_cons_succ]
      rw [ih (i0 + 1) k]
      have : i0 + 1 + k = i0 + (k + 1) := by omega
      rw [this]

/-- C6: `build_callback_fn` synthesizes its compilation unit in exactly
this order: the `#include <mujoco.h>` line first, then one line
`#define <name_i> d->userdata[i]` for every index `i` into
`userdata_names` (none when the list is empty), then the caller's
`function_string` verbatim, then the single trailing declaration
capturing the entry address into `__fun`. -/
theorem build_callback_source_layout (function_string : String) (userdata_names : List String) :
    build_callback_source function_string userdata_names
      = "#include <mujoco.h>\n"
        ++ String.join (spec_userdata_lines 0 userdata_names)
        ++ function_string
        ++ "\nuintptr_t __fun = (uintptr_t) fun;"
    ∧ (∀ i : Nat, (spec_userdata_lines 0 userdata_names)[i]? =
        (userdata_names[i]?).map fun n =>
          "#define " ++ n ++ " d->userdata[" ++ toString i ++ "]\n")
    ∧ build_callback_source function_string []
      = "#include <mujoco.h>\n" ++ function_string
          ++ "\nuintptr_t __fun = (uintptr_t) fun;" := by
  refine ⟨?_, ?_, ?_⟩
  · rw [build_callback_source, add_userdata_defines_join]
  · intro i
    rw [spec_userdata_lines_getElem]
    simp
  · rw [build_callback_source, add_userdata_defines]

/-- C5: `MujocoExtensionBuilder.build` publishes atomically.  Under the
scratch-confinement property of `_build_impl` (it never writes the
canonical path — its outputs live in the version-scoped scratch
directory): on success the freshly built shared object is moved to the
canonical path (whose new content is exactly the built file, replacing
any stale content) and the canonical path is returned, every other path
keeping its value; on toolchain failure the same exception propagates
and the canonical path's content — present or absent — is unchanged. -/
theorem build_publish_atomic (impl : FSc → Except Nat String × FSc) (so_file_path : String)
    (fs : FSc) (hso : (impl fs).2 so_file_path = fs so_file_path) :
    (∀ (e : Nat) (fs1 : FSc), impl fs = (Except.error e, fs1) →
        MujocoExtensionBuilder.build impl so_file_path fs = (Except.error e, fs1)
        ∧ fs1 so_file_path = fs so_file_path)
    ∧ ∀ (built : String) (fs1 : FSc), impl fs = (Except.ok built, fs1) →
        built ≠ so_file_path →
        (MujocoExtensionBuilder.build impl so_file_path fs).1 = Except.ok so_file_path
        ∧ (MujocoExtensionBuilder.build impl so_file_path fs).2 so_file_path = fs1 built
        ∧ (MujocoExtensionBuilder.build impl so_file_path fs).2 built = none
        ∧ ∀ q, q ≠ so_file_path → q ≠ built →
            (MujocoExtensionBuilder.build impl so_file_path fs).2 q = fs1 q := by
  constructor
  · intro e fs1 h
    constructor
    · unfold MujocoExtensionBuilder.build
      rw [h]
    · rw [h] at hso
      exact hso
  · intro built fs1 h hne
    unfold MujocoExtensionBuilder.build
    rw [h]
    refine ⟨rfl, ?_, ?_, ?_⟩
    · simp [updFSc]
    · simp [updFSc, hne]
    · intro q hq1 hq2
      simp only [updFSc]
      rw [if_neg hq1, if_neg hq2]

/-- Witness for C5: a concrete successful build replaces the stale
canonical artifact with the scratch output, and a concrete failing
build propagates error 42 leaving the stale artifact in place. -/
theorem build_publish_atomic_witness :
    ((MujocoExtensionBuilder.build implW "/gen/cymj.so" fscW).1 = Except.ok "/gen/cymj.so"
      ∧ (MujocoExtensionBuilder.build implW "/gen/cymj.so" fscW).2 "/gen/cymj.so" = some 7)
    ∧ (MujocoExtensionBuilder.build implFailW "/gen/cymj.so" fscW).1 = Except.error 42
    ∧ (implFailW fscW).2 "/gen/cymj.so" = some 3 := by
  have hok := (build_publish_atomic implW "/gen/cymj.so" fscW (by rfl)).2
      "/gen/_pyxbld/built.so" (updFSc fscW "/gen/_pyxbld/built.so" (some 7)) rfl (by decide)
  have herr := (build_publish_atomic implFailW "/gen/cymj.so" fscW (by rfl)).1
      42 (updFSc fscW "/gen/_pyxbld/part.o" (some 9)) rfl
  refine ⟨⟨hok.1, ?_⟩, ?_, ?_⟩
  · rw [hok.2.1]; rfl
  · rw [herr.1]
  · exact herr.2

/-- `mll_rebuild` returns the final path paired with its filesystem. -/
theorem mll_rebuild_pair (mp final : String) (now : Nat) (fs : MacFS) (rf : MacFile) :
    mll_rebuild mp final now fs rf = (final, (mll_rebuild mp final now fs rf).2) := rfl

/-- `mll_rebuild` leaves every path other than the final artifact and
its temporary untouched. -/
theorem mll_rebuild_at_other (mp final : String) (now : Nat) (fs : MacFS) (rf : MacFile)
    (q : String) (h1 : q ≠ final) (h2 : q ≠ final ++ "~") :
    (mll_rebuild mp final now fs rf).2 q = fs q := by
  simp [mll_rebuild, updFS, h1, h2]

/-- After `mll_rebuild` the final artifact holds the two dependency
rewrites of the raw content, stamped with the current time. -/
theorem mll_rebuild_at_final (mp final : String) (now : Nat) (fs : MacFS) (rf : MacFile) :
    (mll_rebuild mp final now fs rf).2 final =
      some ⟨install_name_tool_change "libglfw.3.dylib" ((mp ++ "/bin") ++ "/libglfw.3.dylib")
              (install_name_tool_change "@executable_path/libmujoco200.dylib"
                ((mp ++ "/bin") ++ "/libmujoco200.dylib") rf.content), now⟩ := by
  simp [mll_rebuild, updFS]

/-- Evaluation of `manually_link_libraries` in the up-to-date case:
final artifact present and not older than the raw artifact — skip. -/
theorem mll_eval_skip (mp raw : String) (now : Nat) (fs : MacFS) (rf ff : MacFile)
    (hraw : fs raw = some rf) (hff : fs (final_path raw) = some ff)
    (h : rf.mtime ≤ ff.mtime) :
    manually_link_libraries mp raw now fs = Except.ok (final_path raw, fs) := by
  unfold manually_link_libraries
  simp only [hff, hraw]
  rw [if_pos h]

/-- Evaluation of `manually_link_libraries` when the final artifact
exists but is older than the raw artifact — regenerate. -/
theorem mll_eval_stale (mp raw : String) (now : Nat) (fs : MacFS) (rf ff : MacFile)
    (hraw : fs raw = some rf) (hff : fs (final_path raw) = some ff)
    (h : ¬ rf.mtime ≤ ff.mtime) :
    manually_link_libraries mp raw now fs
      = Except.ok (final_path raw, (mll_rebuild mp (final_path raw) now fs rf).2) := by
  unfold manually_link_libraries
  simp only [hff, hraw]
  rw [if_neg h, mll_rebuild_pair]

/-- Evaluation of `manually_link_libraries` when no final artifact
exists — regenerate. -/
theorem mll_eval_absent (mp raw : String) (now : Nat) (fs : MacFS) (rf : MacFile)
    (hraw : fs raw = some rf) (hff : fs (final_path raw) = none) :
    manually_link_libraries mp raw now fs
      = Except.ok (final_path raw, (mll_rebuild mp (final_path raw) now fs rf).2) := by
  unfold manually_link_libraries
  simp only [hff, hraw]
  rw [mll_rebuild_pair]

/-- C3: `manually_link_libraries` is idempotent and never overwrites its
input.  Given a raw artifact on disk, the call succeeds and returns the
secondary `<root>_final<ext>` path; the raw artifact is unchanged and
every path other than the final artifact and its transient `~` file is
unchanged; when a final artifact already exists whose mtime is not older
than the raw artifact's, nothing is rewritten (the filesystem is
returned as-is); and a second invocation returns the same final path
with identical final-artifact content — and, whenever the raw artifact
is not newer than the clock at the first call, the second invocation
changes nothing at all. -/
theorem manually_link_libraries_idempotent (mujoco_path raw : String) (now now2 : Nat)
    (fs : MacFS) (rf : MacFile) (hraw : fs raw = some rf) :
    ∃ fs1, manually_link_libraries mujoco_path raw now fs = Except.ok (final_path raw, fs1)
      ∧ fs1 raw = fs raw
      ∧ (∀ q, q ≠ final_path raw → q ≠ final_path raw ++ "~" → fs1 q = fs q)
      ∧ (∀ ff, fs (final_path raw) = some ff → rf.mtime ≤ ff.mtime → fs1 = fs)
      ∧ ∃ fs2, manually_link_libraries mujoco_path raw now2 fs1 = Except.ok (final_path raw, fs2)
          ∧ Option.map MacFile.content (fs2 (final_path raw))
              = Option.map MacFile.content (fs1 (final_path raw))
          ∧ (rf.mtime ≤ now → fs2 = fs1) := by
  cases hff : fs (final_path raw) with
  | some ff =>
    by_cases hmt : rf.mtime ≤ ff.mtime
    · -- up-to-date final artifact: both runs skip
      refine ⟨fs, mll_eval_skip mujoco_path raw now fs rf ff hraw hff hmt, rfl,
        fun q _ _ => rfl, fun _ _ _ => rfl, fs,
        mll_eval_skip mujoco_path raw now2 fs rf ff hraw hff hmt, rfl, fun _ => rfl⟩
    · -- stale final artifact: first run regenerates
      have hraw1 : (mll_rebuild mujoco_path (final_path raw) now fs rf).2 raw = fs raw :=
        mll_rebuild_at_other _ _ _ _ _ raw (Ne.symm (final_path_ne raw))
          (Ne.symm (tmp_ne_raw raw))
      have hraw1' : (mll_rebuild mujoco_path (final_path raw) now fs rf).2 raw = some rf := by
        rw [hraw1, hraw]
      have hfp1 := mll_rebuild_at_final mujoco_path (final_path raw) now fs rf
      refine ⟨(mll_rebuild mujoco_path (final_path raw) now fs rf).2,
        mll_eval_stale mujoco_path raw now fs rf ff hraw hff hmt, hraw1,
        fun q h1 h2 => mll_rebuild_at_other _ _ _ _ _ q h1 h2, ?_, ?_⟩
      · intro ff2 h1 h2
        injection h1 with he
        subst he
        exact absurd h2 hmt
      · by_cases hn : rf.mtime ≤ now
        · -- second run skips: the regenerated final has mtime `now`
          refine ⟨(mll_rebuild mujoco_path (final_path raw) now fs rf).2,
            mll_eval_skip mujoco_path raw now2 _ rf _ hraw1' hfp1 hn, rfl, fun _ => rfl⟩
        · -- degenerate clock: second run regenerates the same content
          refine ⟨(mll_rebuild mujoco_path (final_path raw) now2
              ((mll_rebuild mujoco_path (final_path raw) now fs rf).2) rf).2,
            mll_eval_stale mujoco_path raw now2 _ rf _ hraw1' hfp1 hn, ?_,
            fun h => absurd h hn⟩
          rw [hfp1, mll_rebuild_at_final]
          simp
  | none =>
    -- no final artifact: first run regenerates
    have hraw1 : (mll_rebuild mujoco_path (final_path raw) now fs rf).2 raw = fs raw :=
      mll_rebuild_at_other _ _ _ _ _ raw (Ne.symm (final_path_ne raw))
        (Ne.symm (tmp_ne_raw raw))
    have hraw1' : (mll_rebuild mujoco_path (final_path raw) now fs rf).2 raw = some rf := by
      rw [hraw1, hraw]
    have hfp1 := mll_rebuild_at_final mujoco_path (final_path raw) now fs rf
    refine ⟨(mll_rebuild mujoco_path (final_path raw) now fs rf).2,
      mll_eval_absent mujoco_path raw now fs rf hraw hff, hraw1,
      fun q h1 h2 => mll_rebuild_at_other _ _ _ _ _ q h1 h2, ?_, ?_⟩
    · intro ff2 h1
      exact Option.noConfusion h1
    · by_cases hn : rf.mtime ≤ now
      · refine ⟨(mll_rebuild mujoco_path (final_path raw) now fs rf).2,
          mll_eval_skip mujoco_path raw now2 _ rf _ hraw1' hfp1 hn, rfl, fun _ => rfl⟩
      · refine ⟨(mll_rebuild mujoco_path (final_path raw) now2
            ((mll_rebuild mujoco_path (final_path raw) now fs rf).2) rf).2,
          mll_eval_stale mujoco_path raw now2 _ rf _ hraw1' hfp1 hn, ?_,
          fun h => absurd h hn⟩
        rw [hfp1, mll_rebuild_at_final]
        simp

/-- Witness for C3: a concrete raw artifact processed at clock 10; the
call returns the final path, leaves the raw artifact unchanged, and a
second run at clock 11 changes nothing. -/
theorem manually_link_libraries_idempotent_witness :
    ∃ fs1, manually_link_libraries "/mj" "/x/cymj_raw.so" 10 macFSw
        = Except.ok (final_path "/x/cymj_raw.so", fs1)
      ∧ fs1 "/x/cymj_raw.so" = macFSw "/x/cymj_raw.so"
      ∧ ∃ fs2, manually_link_libraries "/mj" "/x/cymj_raw.so" 11 fs1
          = Except.ok (final_path "/x/cymj_raw.so", fs2)
        ∧ fs2 = fs1 := by
  obtain ⟨fs1, h1, h2, _, _, fs2, h5, _, h7⟩ :=
    manually_link_libraries_idempotent "/mj" "/x/cymj_raw.so" 10 11 macFSw macFileW
      (by rw [macFSw]; rw [if_pos rfl]; rfl)
  exact ⟨fs1, h1, h2, fs2, h5, h7 (by decide)⟩
